import Mathlib

/-!
Shallow embedding of the reconciliation and configuration-resolution core of
the sov-o-o operator (src/crd/src/lib.rs, src/crd/src/affinity.rs,
src/crd/src/odoodb.rs, src/operator/src/odoo_controller.rs,
src/operator/src/odoo_db_controller.rs), together with theorems settling the
frozen claims about it.

Conventions of the embedding:
* Rust `Option<T>` becomes `Option T`; fallible functions return `Except`.
* `BTreeMap` becomes an association list (`List (κ × α)`); the source's
  `HashMap` iteration (whose order Rust leaves unspecified) is modelled as a
  deterministic list in construction order.
* Side-effecting Kubernetes calls (`apply_patch`, `apply_patch_status`) are
  modelled by accumulating the objects that a reconcile pass applies;
  external lookups (secret existence, job state) are passed in as parameters.
* Types owned by the external `stackable_operator` crate (merge semantics of
  the `Merge` derive, `add_legacy_selector`, the affinity term builders,
  `default_logging`) are modelled at their interface, following the
  behaviour pinned by this repository's own tests in
  src/crd/src/affinity.rs and the spec's interface section.
-/

deriving instance DecidableEq for Except

namespace SovOO

/-- Opaque model of the `k8s_openapi` `Quantity` resource-quantity string. -/
structure Quantity where
  val : String
deriving DecidableEq, Repr

/-- Opaque model of a log level (stackable `LogLevel`). -/
structure LogLevel where
  val : String
deriving DecidableEq, Repr

/-! ## Roles (src/crd/src/lib.rs, `enum OdooRole`) -/

/-- Embeds `OdooRole`: the three deployment roles (src/crd/src/lib.rs:338-345). -/
inductive OdooRole
  | webserver
  | scheduler
  | worker
deriving DecidableEq, Repr

/-- The strum `Display` serialization of `OdooRole`
(src/crd/src/lib.rs:339-344). -/
def OdooRole.toStr : OdooRole → String
  | .webserver => "webserver"
  | .scheduler => "scheduler"
  | .worker => "worker"

/-- Embeds `OdooRole::iter()` order (derive order of the enum). -/
def OdooRole.iterList : List OdooRole := [.webserver, .scheduler, .worker]

/-- The strum `EnumString` parse (`OdooRole::from_str`), returning `none`
where the Rust parse returns `Err`. -/
def odooRoleFromStr (s : String) : Option OdooRole :=
  if s = "webserver" then some .webserver
  else if s = "scheduler" then some .scheduler
  else if s = "worker" then some .worker
  else none

/-- Embeds `OdooRole::get_http_port` (src/crd/src/lib.rs:366-372). -/
def OdooRole.getHttpPort : OdooRole → Option Nat
  | .webserver => some 8080
  | .scheduler => none
  | .worker => none

/-- Embeds `role_port` (src/operator/src/odoo_controller.rs:471-473):
`OdooRole::from_str(role_name).unwrap().get_http_port()`.
The outer `none` models the panic of `.unwrap()` on an unparsable role
name; `some p` is the value the Rust function actually returns. -/
def role_port (roleName : String) : Option (Option Nat) :=
  (odooRoleFromStr roleName).map OdooRole.getHttpPort

/-! ## Affinity data model (k8s types, as used by the repo) -/

/-- A k8s `LabelSelector` restricted to the parts this program reads:
`match_labels` and `match_expressions` (whose elements have the same
key/operator/values shape for label- and node-selector requirements). -/
structure NodeSelectorRequirement where
  key : String
  operator : String
  values : Option (List String)
deriving DecidableEq, Repr

structure LabelSelectorModel where
  matchLabels : Option (List (String × String))
  matchExpressions : Option (List NodeSelectorRequirement)
deriving DecidableEq, Repr

structure PodAffinityTermModel where
  matchLabels : List (String × String)
  topologyKey : String
deriving DecidableEq, Repr

structure WeightedPodAffinityTermModel where
  podAffinityTerm : PodAffinityTermModel
  weight : Int
deriving DecidableEq, Repr

/-- k8s `PodAffinity` / `PodAntiAffinity`: a preferred (soft) list and a
required (hard) list, both optional. -/
structure PodAffinityModel where
  preferred : Option (List WeightedPodAffinityTermModel)
  required : Option (List PodAffinityTermModel)
deriving DecidableEq, Repr

structure NodeSelectorTermModel where
  matchExpressions : Option (List NodeSelectorRequirement)
deriving DecidableEq, Repr

structure NodeSelectorModel where
  nodeSelectorTerms : List NodeSelectorTermModel
deriving DecidableEq, Repr

structure NodeAffinityModel where
  preferred : Option (List (Int × NodeSelectorTermModel))
  required : Option NodeSelectorModel
deriving DecidableEq, Repr

/-- Embeds `StackableAffinityFragment` (and the validated `StackableAffinity`,
whose four fields are all optional as well, so validation is the
identity on this part). -/
structure StackableAffinityFragment where
  podAffinity : Option PodAffinityModel
  podAntiAffinity : Option PodAffinityModel
  nodeAffinity : Option NodeAffinityModel
  nodeSelector : Option (List (String × String))
deriving DecidableEq, Repr

/-- Embeds `APP_NAME` (src/crd/src/lib.rs:38). -/
def APP_NAME : String := "odoo"

/-- Embeds `affinity_between_cluster_pods` of the external stackable crate:
one weighted term over the application-name and cluster-instance labels,
keyed on hostname. Pinned by the repo test
src/crd/src/affinity.rs:95-117. -/
def affinityBetweenClusterPods (appName clusterName : String) (weight : Int) :
    WeightedPodAffinityTermModel :=
  { podAffinityTerm :=
      { matchLabels :=
          [("app.kubernetes.io/name", appName),
           ("app.kubernetes.io/instance", clusterName)],
        topologyKey := "kubernetes.io/hostname" },
    weight := weight }

/-- Embeds `affinity_between_role_pods` of the external stackable crate: like
`affinityBetweenClusterPods` plus the role (component) label. Pinned by the
repo test src/crd/src/affinity.rs:118-141. -/
def affinityBetweenRolePods (appName clusterName role : String) (weight : Int) :
    WeightedPodAffinityTermModel :=
  { podAffinityTerm :=
      { matchLabels :=
          [("app.kubernetes.io/name", appName),
           ("app.kubernetes.io/instance", clusterName),
           ("app.kubernetes.io/component", role)],
        topologyKey := "kubernetes.io/hostname" },
    weight := weight }

/-- Embeds `get_affinity` (src/crd/src/affinity.rs:10-31). -/
def get_affinity (clusterName : String) (role : OdooRole) :
    StackableAffinityFragment :=
  { podAffinity := some
      { preferred := some [affinityBetweenClusterPods APP_NAME clusterName 20],
        required := none },
    podAntiAffinity := some
      { preferred := some [affinityBetweenRolePods APP_NAME clusterName role.toStr 70],
        required := none },
    nodeAffinity := none,
    nodeSelector := none }

/-- Embeds `StackableAffinityFragment::add_legacy_selector` of the external
stackable crate, pinned by the repo test
src/crd/src/affinity.rs:152-276: the legacy flat selector's
`match_expressions` become a required node-affinity term and its
`match_labels` become the node-selector map, each filled only if the
fragment does not already set the field. -/
def addLegacySelector (a : StackableAffinityFragment) (sel : LabelSelectorModel) :
    StackableAffinityFragment :=
  let nodeAff : Option NodeAffinityModel :=
    sel.matchExpressions.map (fun exprs =>
      { preferred := none,
        required := some { nodeSelectorTerms := [{ matchExpressions := some exprs }] } })
  { a with
    nodeAffinity := a.nodeAffinity <|> nodeAff,
    nodeSelector := a.nodeSelector <|> sel.matchLabels }

/-! ## Configuration fragments and the merge engine -/

/-- Association-list lookup (model of `BTreeMap::get`). -/
def assocLookup {κ α : Type} [DecidableEq κ] (l : List (κ × α)) (k : κ) :
    Option α :=
  (l.find? (fun p => decide (p.1 = k))).map (·.2)

/-- Embeds `CpuLimitsFragment` (external stackable type used at
src/crd/src/lib.rs:493-522): both bounds optional. -/
structure CpuLimitsFragment where
  min : Option Quantity
  max : Option Quantity
deriving DecidableEq, Repr

structure MemoryLimitsFragment where
  limit : Option Quantity
deriving DecidableEq, Repr

structure ResourcesFragment where
  cpu : CpuLimitsFragment
  memory : MemoryLimitsFragment
deriving DecidableEq, Repr

/-- Fragment of a single logger configuration: the `level` is the field
the validated type requires. -/
structure LoggerConfigFragment where
  level : Option LogLevel
deriving DecidableEq, Repr

/-- Fragment of one container's log configuration, reduced to the loggers
map (name → logger fragment) of the automatic log config. -/
structure ContainerLogConfigFragment where
  loggers : List (String × LoggerConfigFragment)
deriving DecidableEq, Repr

/-- Embeds `Logging<T>` fragment: `enable_vector_agent` is required in the
validated type; `containers` maps container names to log-config
fragments. -/
structure LoggingFragment (C : Type) where
  enableVectorAgent : Option Bool
  containers : List (C × ContainerLogConfigFragment)
deriving DecidableEq, Repr

/-- The cluster-side container enum `Container` (src/crd/src/lib.rs:458-461). -/
inductive ContainerName
  | odoo
  | vector
deriving DecidableEq, Repr

/-- The db-side container enum (src/crd/src/odoodb.rs:45-48). -/
inductive DbContainerName
  | odooInitDb
  | vector
deriving DecidableEq, Repr

/-- Embeds `OdooConfigFragment` (src/crd/src/lib.rs:463-484). -/
structure OdooConfigFragment where
  resources : ResourcesFragment
  logging : LoggingFragment ContainerName
  affinity : StackableAffinityFragment
deriving DecidableEq, Repr

/-- The all-unset fragment (`Default` of the fragment type). -/
def emptyOdooConfigFragment : OdooConfigFragment :=
  { resources := { cpu := ⟨none, none⟩, memory := ⟨none⟩ },
    logging := { enableVectorAgent := none, containers := [] },
    affinity := ⟨none, none, none, none⟩ }

/-! ### Merge (`Merge` derive of the stackable crate): `self.merge(&defaults)`
keeps every field `self` sets and fills unset fields from `defaults`,
recursing into nested structs and merging maps per key. -/

def mergeLoggerFragment (g d : LoggerConfigFragment) : LoggerConfigFragment :=
  ⟨g.level <|> d.level⟩

/-- Per-key merge of two association lists: keys of `g` keep their value
merged with `d`'s entry at the same key; keys only in `d` are appended. -/
def mergeAssoc {κ α : Type} [DecidableEq κ] (m : α → α → α)
    (g d : List (κ × α)) : List (κ × α) :=
  (g.map (fun p =>
    match assocLookup d p.1 with
    | some dv => (p.1, m p.2 dv)
    | none => p))
  ++ d.filter (fun p => (assocLookup g p.1).isNone)

def mergeContainerLogConfig (g d : ContainerLogConfigFragment) :
    ContainerLogConfigFragment :=
  ⟨mergeAssoc mergeLoggerFragment g.loggers d.loggers⟩

def mergeLogging {C : Type} [DecidableEq C] (g d : LoggingFragment C) :
    LoggingFragment C :=
  { enableVectorAgent := g.enableVectorAgent <|> d.enableVectorAgent,
    containers := mergeAssoc mergeContainerLogConfig g.containers d.containers }

def mergeResources (g d : ResourcesFragment) : ResourcesFragment :=
  { cpu := ⟨g.cpu.min <|> d.cpu.min, g.cpu.max <|> d.cpu.max⟩,
    memory := ⟨g.memory.limit <|> d.memory.limit⟩ }

/-- The four affinity fields are atomic in the stackable merge: each is
taken wholesale from the more specific layer when set there. -/
def mergeAffinity (g d : StackableAffinityFragment) : StackableAffinityFragment :=
  { podAffinity := g.podAffinity <|> d.podAffinity,
    podAntiAffinity := g.podAntiAffinity <|> d.podAntiAffinity,
    nodeAffinity := g.nodeAffinity <|> d.nodeAffinity,
    nodeSelector := g.nodeSelector <|> d.nodeSelector }

def mergeOdooConfigFragment (g d : OdooConfigFragment) : OdooConfigFragment :=
  { resources := mergeResources g.resources d.resources,
    logging := mergeLogging g.logging d.logging,
    affinity := mergeAffinity g.affinity d.affinity }

/-! ### Validated configuration and `fragment::validate` -/

structure CpuLimits where
  min : Option Quantity
  max : Option Quantity
deriving DecidableEq, Repr

structure MemoryLimits where
  limit : Option Quantity
deriving DecidableEq, Repr

structure ResourcesConfig where
  cpu : CpuLimits
  memory : MemoryLimits
deriving DecidableEq, Repr

structure LoggerConfig where
  level : LogLevel
deriving DecidableEq, Repr

structure ContainerLogConfig where
  loggers : List (String × LoggerConfig)
deriving DecidableEq, Repr

structure LoggingConfig (C : Type) where
  enableVectorAgent : Bool
  containers : List (C × ContainerLogConfig)
deriving DecidableEq, Repr

/-- Validated `OdooConfig` (src/crd/src/lib.rs:477-484). The validated
`StackableAffinity` has the same optional fields as its fragment. -/
structure OdooConfig where
  resources : ResourcesConfig
  logging : LoggingConfig ContainerName
  affinity : StackableAffinityFragment
deriving DecidableEq, Repr

/-- A fragment validation error (`stackable_operator::config::fragment::ValidationError`),
reduced to the name of the missing field. -/
structure ValidationError where
  field : String
deriving DecidableEq, Repr

def validateLogger (name : String) (f : LoggerConfigFragment) :
    Except ValidationError LoggerConfig :=
  match f.level with
  | some l => .ok ⟨l⟩
  | none => .error ⟨name ++ ".level"⟩

def validateLoggers :
    List (String × LoggerConfigFragment) →
    Except ValidationError (List (String × LoggerConfig))
  | [] => .ok []
  | (k, v) :: rest => do
    let v' ← validateLogger k v
    let rest' ← validateLoggers rest
    return (k, v') :: rest'

def validateContainers {C : Type} :
    List (C × ContainerLogConfigFragment) →
    Except ValidationError (List (C × ContainerLogConfig))
  | [] => .ok []
  | (k, v) :: rest => do
    let ls ← validateLoggers v.loggers
    let rest' ← validateContainers rest
    return (k, ⟨ls⟩) :: rest'

def validateLogging {C : Type} (f : LoggingFragment C) :
    Except ValidationError (LoggingConfig C) :=
  match f.enableVectorAgent with
  | none => .error ⟨"enableVectorAgent"⟩
  | some eva => do
    let cs ← validateContainers f.containers
    return { enableVectorAgent := eva, containers := cs }

/-- Embeds `fragment::validate` on `OdooConfigFragment`: resource bounds and all
affinity fields stay optional in the validated type, so only the logging
part can fail. -/
def validateOdooConfig (f : OdooConfigFragment) :
    Except ValidationError OdooConfig := do
  let lg ← validateLogging f.logging
  let res : ResourcesConfig :=
    { cpu := ⟨f.resources.cpu.min, f.resources.cpu.max⟩,
      memory := ⟨f.resources.memory.limit⟩ }
  return { resources := res, logging := lg, affinity := f.affinity }

/-! ### Defaults -/

/-- Embeds `product_logging::spec::default_logging()` of the external stackable
crate, at its interface: vector agent off, and for every container an
automatic config whose ROOT logger has a set level. -/
def defaultLogging {C : Type} (cs : List C) : LoggingFragment C :=
  { enableVectorAgent := some false,
    containers := cs.map (fun c => (c, ⟨[("ROOT", ⟨some ⟨"INFO"⟩⟩)]⟩)) }

/-- Embeds `OdooConfig::default_config` (src/crd/src/lib.rs:490-533): role-aware
cpu/memory baselines, default logging, and the default affinity. -/
def OdooConfig.default_config (clusterName : String) (role : OdooRole) :
    OdooConfigFragment :=
  let cpu : CpuLimitsFragment :=
    match role with
    | .worker => ⟨some ⟨"200m"⟩, some ⟨"800m"⟩⟩
    | .webserver => ⟨some ⟨"100m"⟩, some ⟨"400m"⟩⟩
    | .scheduler => ⟨some ⟨"100m"⟩, some ⟨"400m"⟩⟩
  let memory : MemoryLimitsFragment :=
    match role with
    | .worker => ⟨some ⟨"1750Mi"⟩⟩
    | .webserver => ⟨some ⟨"2Gi"⟩⟩
    | .scheduler => ⟨some ⟨"512Mi"⟩⟩
  { resources := { cpu := cpu, memory := memory },
    logging := defaultLogging [ContainerName.odoo, ContainerName.vector],
    affinity := get_affinity clusterName role }

/-! ## Cluster spec data model (src/crd/src/lib.rs) -/

/-- Embeds `GitSync` (src/crd/src/lib.rs:214-222). -/
structure GitSync where
  repo : String
  branch : Option String
  gitFolder : Option String
  depth : Option Nat
  wait : Option Nat
  credentialsSecret : Option String
  gitSyncConf : Option (List (String × String))
deriving DecidableEq, Repr

/-- ASCII lower-casing of one character (for `eq_ignore_ascii_case`). -/
def asciiLowerChar (ch : Char) : Char :=
  if 'A' ≤ ch ∧ ch ≤ 'Z' then Char.ofNat (ch.toNat + 32) else ch

def asciiLower (s : String) : String := ⟨s.data.map asciiLowerChar⟩

/-- Embeds `GitSync::get_args` (src/crd/src/lib.rs:225-255), with the constants
GIT_SYNC_DEPTH = 1, GIT_SYNC_WAIT = 20, GIT_LINK = "current",
GIT_ROOT = "/tmp/git" inlined, and `eq_ignore_ascii_case` modelled by
ASCII-lower-casing the key. -/
def GitSync.get_args (g : GitSync) : List String :=
  let base : List String :=
    ["/stackable/git-sync",
     "--repo=" ++ g.repo,
     "--branch=" ++ g.branch.getD "main",
     "--depth=" ++ toString (g.depth.getD 1),
     "--wait=" ++ toString (g.wait.getD 20),
     "--dest=current",
     "--root=/tmp/git",
     "--git-config=safe.directory:/tmp/git"]
  match g.gitSyncConf with
  | none => base
  | some conf =>
    base ++ (conf.filter (fun p =>
        !(asciiLower p.1 == "--dest" || asciiLower p.1 == "--root" ||
          asciiLower p.1 == "--git-config"))).map
      (fun p => p.1 ++ "=" ++ p.2)

/-- A role group (`RoleGroup<OdooConfigFragment>`): config fragment,
replica count and the deprecated flat `selector`. Pod overrides are out of
scope. -/
structure RoleGroupEntry where
  config : OdooConfigFragment
  replicas : Option Nat
  selector : Option LabelSelectorModel
deriving DecidableEq, Repr

/-- A role (`Role<OdooConfigFragment>`): the role-level config fragment
(`role.config.config` in the source) and the role-group map. -/
structure RoleEntry where
  config : OdooConfigFragment
  roleGroups : List (String × RoleGroupEntry)
deriving DecidableEq, Repr

/-- Embeds `OdooClusterConfig` (src/crd/src/lib.rs:152-187), restricted to the
fields the reconciliation core reads. Authentication, vector aggregator
and extra volumes are out of scope. -/
structure OdooClusterConfig where
  credentialsSecret : String
  dagsGitSync : List GitSync
  executor : Option String
  exposeConfig : Option Bool
  loadExamples : Option Bool
deriving DecidableEq, Repr

/-- Embeds `OdooCluster` (spec plus name; src/crd/src/lib.rs:133-148). -/
structure OdooCluster where
  name : String
  clusterConfig : OdooClusterConfig
  webservers : Option RoleEntry
  schedulers : Option RoleEntry
  workers : Option RoleEntry
deriving DecidableEq, Repr

/-- Embeds `OdooCluster::get_role` (src/crd/src/lib.rs:384-390). -/
def OdooCluster.get_role (c : OdooCluster) : OdooRole → Option RoleEntry
  | .webserver => c.webservers
  | .scheduler => c.schedulers
  | .worker => c.workers

/-- Embeds `OdooCluster::git_sync` (src/crd/src/lib.rs:411-422): only the first
list element is considered. -/
def OdooCluster.git_sync (c : OdooCluster) : Option GitSync :=
  c.clusterConfig.dagsGitSync.head?

/-- The condition under which `OdooCluster::git_sync` emits its
`tracing::warn!` diagnostic about ignored extra entries
(src/crd/src/lib.rs:415-420). -/
def OdooCluster.gitSyncWarning (c : OdooCluster) : Bool :=
  c.clusterConfig.dagsGitSync.length > 1

/-- Embeds `sovrin_cloud_crd::Error` (src/crd/src/lib.rs:59-65). -/
inductive CrdError
  | unknownOdooRole (role : String)
  | fragmentValidationFailure (e : ValidationError)
deriving DecidableEq, Repr

/-- Embeds `OdooCluster::merged_config` (src/crd/src/lib.rs:601-669): defaults,
role fragment, role-group fragment; legacy selector migration on the
role-group fragment; then `conf_role.merge(&conf_defaults)` and
`conf_rolegroup.merge(&conf_role)`; finally fragment validation. -/
def OdooCluster.merged_config (c : OdooCluster) (role : OdooRole)
    (roleGroup : String) : Except CrdError OdooConfig :=
  let conf_defaults := OdooConfig.default_config c.name role
  match c.get_role role with
  | none => .error (.unknownOdooRole role.toStr)
  | some roleEntry =>
    let conf_role := roleEntry.config
    let rg := assocLookup roleEntry.roleGroups roleGroup
    let conf_rolegroup := (rg.map (·.config)).getD emptyOdooConfigFragment
    let conf_rolegroup :=
      match rg with
      | some rgE =>
        match rgE.selector with
        | some sel =>
          { conf_rolegroup with
            affinity := addLegacySelector conf_rolegroup.affinity sel }
        | none => conf_rolegroup
      | none => conf_rolegroup
    let conf_role := mergeOdooConfigFragment conf_role conf_defaults
    let conf_rolegroup := mergeOdooConfigFragment conf_rolegroup conf_role
    match validateOdooConfig conf_rolegroup with
    | .ok cfg => .ok cfg
    | .error e => .error (.fragmentValidationFailure e)

/-! ## Database bootstrap state machine (src/crd/src/odoodb.rs,
src/operator/src/odoo_db_controller.rs) -/

/-- Embeds `OdooDBStatusCondition` (src/crd/src/odoodb.rs:196-202). -/
inductive OdooDBStatusCondition
  | pending
  | initializing
  | ready
  | failed
deriving DecidableEq, Repr

/-- Embeds `OdooDBStatus` (src/crd/src/odoodb.rs:155-161); the timestamp is an
abstract `Nat`. -/
structure OdooDBStatus where
  startedAt : Option Nat
  condition : OdooDBStatusCondition
deriving DecidableEq, Repr

/-- Embeds `OdooDBStatus::new` (src/crd/src/odoodb.rs:164-169): stamp `startedAt`
with the current time and start `Pending`. -/
def OdooDBStatus.new (now : Nat) : OdooDBStatus :=
  { startedAt := some now, condition := .pending }

/-- Embeds `OdooDBStatus::initializing` (src/crd/src/odoodb.rs:171-175). -/
def OdooDBStatus.initializing (s : OdooDBStatus) : OdooDBStatus :=
  { s with condition := .initializing }

/-- Embeds `OdooDBStatus::ready` (src/crd/src/odoodb.rs:177-181). -/
def OdooDBStatus.ready (s : OdooDBStatus) : OdooDBStatus :=
  { s with condition := .ready }

/-- Embeds `OdooDBStatus::failed` (src/crd/src/odoodb.rs:183-187). -/
def OdooDBStatus.failed (s : OdooDBStatus) : OdooDBStatus :=
  { s with condition := .failed }

/-- Embeds `OdooDbConfigFragment` (src/crd/src/odoodb.rs:50-67): logging only. -/
structure OdooDbConfigFragment where
  logging : LoggingFragment DbContainerName
deriving DecidableEq, Repr

structure OdooDbConfig where
  logging : LoggingConfig DbContainerName
deriving DecidableEq, Repr

/-- Embeds `OdooDbConfig::default_config` (src/crd/src/odoodb.rs:69-75). -/
def OdooDbConfig.default_config : OdooDbConfigFragment :=
  ⟨defaultLogging [DbContainerName.odooInitDb, DbContainerName.vector]⟩

/-- Embeds `OdooDB::merged_config` (src/crd/src/odoodb.rs:147-152):
`config.merge(&defaults)` then validate. -/
def dbMergedConfig (userConfig : OdooDbConfigFragment) :
    Except ValidationError OdooDbConfig :=
  match validateLogging
      (mergeLogging userConfig.logging OdooDbConfig.default_config.logging) with
  | .ok lg => .ok ⟨lg⟩
  | .error e => .error e

/-- The `OdooDB` resource as the db reconciler sees it: name, the
referenced credentials secret, the config fragment and the persisted
status (src/crd/src/odoodb.rs:92-99). -/
structure OdooDBModel where
  name : String
  credentialsSecret : String
  config : OdooDbConfigFragment
  status : Option OdooDBStatus
deriving DecidableEq, Repr

/-- Result of `utils::get_job_state` on the polled init job. -/
inductive JobState
  | complete
  | failed
  | inProgress
deriving DecidableEq, Repr

/-- Typed errors of the db reconciler that the embedded control flow can
reach (src/operator/src/odoo_db_controller.rs:45-108). -/
inductive DbError
  | secretCheck (secret : String)
  | getInitializationJob (job : String)
  | failedToResolveConfig (e : ValidationError)
deriving DecidableEq, Repr

/-- Objects the db reconciler applies through the client. -/
inductive DbApplied
  | serviceAccount
  | roleBinding
  | configMap (name : String)
  | initJob (name : String)
deriving DecidableEq, Repr

/-- One db reconcile pass: everything it applied, every status patch it
wrote (in order), and its overall result. An erroring pass is re-queued
after a fixed 5 s backoff by `error_policy`
(src/operator/src/odoo_db_controller.rs:412-414). -/
structure DbReconcileOut where
  applied : List DbApplied
  statusPatches : List OdooDBStatus
  result : Except DbError Unit
deriving DecidableEq, Repr

/-- Embeds `reconcile_odoo_db` (src/operator/src/odoo_db_controller.rs:117-233).
`secretExists` models the `client.get::<Secret>` call; `jobState` models
`client.get::<Job>` plus `get_job_state` (`none` = job lookup failed);
`now` is the timestamp used by `OdooDBStatus::new`. The RBAC
service-account and role-binding are applied before the state dispatch. -/
def reconcile_odoo_db (db : OdooDBModel) (secretExists : Bool)
    (jobState : Option JobState) (now : Nat) : DbReconcileOut :=
  let rbac : List DbApplied := [.serviceAccount, .roleBinding]
  match db.status with
  | none =>
    -- Status is none => initialize the status object (Pending)
    { applied := rbac, statusPatches := [OdooDBStatus.new now], result := .ok () }
  | some s =>
    match s.condition with
    | .pending =>
      if !secretExists then
        { applied := rbac, statusPatches := [],
          result := .error (.secretCheck db.credentialsSecret) }
      else
        match dbMergedConfig db.config with
        | .error e =>
          { applied := rbac, statusPatches := [],
            result := .error (.failedToResolveConfig e) }
        | .ok _ =>
          { applied := rbac ++
              [.configMap (db.name ++ "-init-db"), .initJob db.name],
            statusPatches := [s.initializing], result := .ok () }
    | .initializing =>
      match jobState with
      | none =>
        { applied := rbac, statusPatches := [],
          result := .error (.getInitializationJob db.name) }
      | some .complete =>
        { applied := rbac, statusPatches := [s.ready], result := .ok () }
      | some .failed =>
        { applied := rbac, statusPatches := [s.failed], result := .ok () }
      | some .inProgress =>
        { applied := rbac, statusPatches := [], result := .ok () }
    | .ready => { applied := rbac, statusPatches := [], result := .ok () }
    | .failed => { applied := rbac, statusPatches := [], result := .ok () }

/-- The persisted status after a reconcile pass: `apply_patch_status`
replaces the status object with each patch in order. -/
def dbPersist (st : Option OdooDBStatus) (out : DbReconcileOut) :
    Option OdooDBStatus :=
  out.statusPatches.foldl (fun _ p => some p) st

/-- One observable step of the db control loop: reconcile, then persist
whatever status patches the pass wrote. -/
def dbStep (db : OdooDBModel) (input : Bool × Option JobState × Nat) :
    OdooDBModel :=
  { db with
    status := dbPersist db.status
      (reconcile_odoo_db db input.1 input.2.1 input.2.2) }

/-- A sequence of db control-loop steps. -/
def dbRun (db : OdooDBModel) (inputs : List (Bool × Option JobState × Nat)) :
    OdooDBModel :=
  inputs.foldl dbStep db

/-! ## Cluster reconciler (src/operator/src/odoo_controller.rs) -/

/-- Embeds `From<&DbConditionBuilder> for bool`
(src/operator/src/odoo_controller.rs:1069-1081): true (wait) for absent
status, Pending, Initializing and Failed; false only for Ready. -/
def dbNotReady : Option OdooDBStatus → Bool
  | some s =>
    match s.condition with
    | .pending => true
    | .initializing => true
    | .failed => true
    | .ready => false
  | none => true

inductive ClusterConditionStatus
  | isTrue
  | isFalse
  | unknown
deriving DecidableEq, Repr

/-- The single `Available` condition built by `DbConditionBuilder`
(src/operator/src/odoo_controller.rs:1031-1065). -/
structure ClusterCondition where
  status : ClusterConditionStatus
  message : String
deriving DecidableEq, Repr

def dbConditions : Option OdooDBStatus → ClusterCondition
  | some s =>
    match s.condition with
    | .pending =>
      ⟨.isFalse, "Waiting for OdooDB initialization to complete"⟩
    | .initializing =>
      ⟨.isFalse, "Waiting for OdooDB initialization to complete"⟩
    | .failed => ⟨.isFalse, "Odoo database initialization failed."⟩
    | .ready => ⟨.isTrue, "Odoo database initialization ready."⟩
  | none =>
    ⟨.unknown, "Waiting for Odoo database initialization to start."⟩

/-- Status patches written onto the cluster resource: either the
"waiting for database" conditions from the gate, or the final aggregated
conditions (statefulset readiness ∧ cluster operation; computed by the
external `compute_conditions`, kept opaque here). -/
inductive ClusterPatch
  | dbWaiting (cond : ClusterCondition)
  | aggregated
deriving DecidableEq, Repr

/-- Typed errors of the cluster reconcile loop reachable in the embedded
control flow (src/operator/src/odoo_controller.rs:88-207). -/
inductive ClusterError
  | unidentifiedOdooRole (role : String)
  | noOdooRole
  | failedToResolveConfig (role roleGroup : String) (e : CrdError)
deriving DecidableEq, Repr

/-- Manifests the cluster reconciler applies. The statefulset records the
replica count and the (joined) git-sync container arguments when a
git-sync side-car is configured. -/
inductive ClusterResource
  | serviceAccount
  | roleBinding
  | roleService (role : String) (port : Nat)
  | rgService (role roleGroup : String) (httpPort : Option Nat)
  | rgConfigMap (role roleGroup : String)
  | rgStatefulSet (role roleGroup : String) (replicas : Option Nat)
      (gitsyncArgs : Option String)
deriving DecidableEq, Repr

/-- Embeds `build_rolegroup_service` (src/operator/src/odoo_controller.rs:551-598):
a headless service with the metrics port and, for roles with an http
port, that port appended. Modelled by recording the optional http port
(the port list is determined by it). The source computes it via
`role_port(&rolegroup.role)`, whose panic branch is unreachable for the
role names the reconciler constructs (see `role_port`). -/
def build_rolegroup_service (roleName roleGroup : String) : ClusterResource :=
  .rgService roleName roleGroup ((odooRoleFromStr roleName).bind OdooRole.getHttpPort)

/-- Embeds `build_rolegroup_config_map`
(src/operator/src/odoo_controller.rs:476-546), reduced to its identity:
the rendered file contents are out of scope. -/
def build_rolegroup_config_map (roleName roleGroup : String) : ClusterResource :=
  .rgConfigMap roleName roleGroup

/-- Embeds `build_server_rolegroup_statefulset`
(src/operator/src/odoo_controller.rs:604-806): errors when the role is
absent from the spec; replicas come from the role-group entry; the
git-sync container (if any) gets `gitsync.get_args().join(" ")` as its
single argument (src/operator/src/odoo_controller.rs:726-750). -/
def build_server_rolegroup_statefulset (c : OdooCluster) (role : OdooRole)
    (roleName roleGroup : String) : Except ClusterError ClusterResource :=
  match c.get_role role with
  | none => .error .noOdooRole
  | some roleE =>
    let rgE := assocLookup roleE.roleGroups roleGroup
    .ok (.rgStatefulSet roleName roleGroup (rgE.bind (·.replicas))
      ((c.git_sync).map (fun g => String.intercalate " " g.get_args)))

/-- The role-group loop body of `reconcile_odoo`
(src/operator/src/odoo_controller.rs:331-390): for each role group,
parse the role name, resolve the merged config (a failure aborts the
whole pass with the typed error: the `?` operator at lines 343-345
returns from `reconcile_odoo`), then apply the role-group service,
config map and statefulset. Returns the resources applied before any
error, and the error if one occurred. -/
def reconcileRoleGroups (c : OdooCluster) (roleName : String) :
    List (String × RoleGroupEntry) →
    List ClusterResource × Option ClusterError
  | [] => ([], none)
  | (rgName, _) :: rest =>
    match odooRoleFromStr roleName with
    | none => ([], some (.unidentifiedOdooRole roleName))
    | some role =>
      match c.merged_config role rgName with
      | .error e =>
        ([], some (.failedToResolveConfig roleName rgName e))
      | .ok _config =>
        let rgService := build_rolegroup_service roleName rgName
        let rgConfigMap := build_rolegroup_config_map roleName rgName
        match build_server_rolegroup_statefulset c role roleName rgName with
        | .error e => ([rgService, rgConfigMap], some e)
        | .ok rgStatefulSet =>
          let restOut := reconcileRoleGroups c roleName rest
          ([rgService, rgConfigMap, rgStatefulSet] ++ restOut.1, restOut.2)

/-- The role loop of `reconcile_odoo`
(src/operator/src/odoo_controller.rs:320-391): for roles that expose a
port (`role_port`), apply the cluster-wide role service, then process
every role group. -/
def reconcileRoles (c : OdooCluster) :
    List (String × RoleEntry) → List ClusterResource × Option ClusterError
  | [] => ([], none)
  | (roleName, roleE) :: rest =>
    let roleSvc : List ClusterResource :=
      match role_port roleName with
      | some (some p) => [.roleService roleName p]
      | _ => []
    let rgOut := reconcileRoleGroups c roleName roleE.roleGroups
    match rgOut.2 with
    | some e => (roleSvc ++ rgOut.1, some e)
    | none =>
      let restOut := reconcileRoles c rest
      (roleSvc ++ rgOut.1 ++ restOut.1, restOut.2)

/-- The roles map built at src/operator/src/odoo_controller.rs:238-253:
every declared role keyed by its serialized name (the source stores this
in a `HashMap`; the model keeps `OdooRole::iter()` order). -/
def rolesMap (c : OdooCluster) : List (String × RoleEntry) :=
  OdooRole.iterList.filterMap
    (fun r => (c.get_role r).map (fun e => (r.toStr, e)))

/-- The action a cluster reconcile returns (`Action::await_change`). -/
inductive ClusterAction
  | awaitChange
deriving DecidableEq, Repr

/-- One cluster reconcile pass: the status patches written, the
resources applied (in order), and the result. -/
structure ReconcileOut where
  patches : List ClusterPatch
  applied : List ClusterResource
  result : Except ClusterError ClusterAction
deriving DecidableEq, Repr

/-- Embeds `reconcile_odoo` (src/operator/src/odoo_controller.rs:217-411)
composed with `wait_for_db_and_update_status` (lines 982-1027).
`dbStatus` is the status of the companion `OdooDB` resource read back
after ensuring it exists. If the db is not ready the pass writes only
the cluster's own "waiting" status conditions and returns
`await_change` without touching any role or role-group resource;
otherwise it applies the RBAC objects and runs the role loop, then
(on success) writes the aggregated conditions. -/
def reconcile_odoo (c : OdooCluster) (dbStatus : Option OdooDBStatus) :
    ReconcileOut :=
  if dbNotReady dbStatus then
    { patches := [.dbWaiting (dbConditions dbStatus)],
      applied := [],
      result := .ok .awaitChange }
  else
    let out := reconcileRoles c (rolesMap c)
    let applied := [ClusterResource.serviceAccount, .roleBinding] ++ out.1
    match out.2 with
    | some e => { patches := [], applied := applied, result := .error e }
    | none =>
      { patches := [.aggregated], applied := applied,
        result := .ok .awaitChange }

/-! ## Environment-variable generation
(src/operator/src/odoo_controller.rs:810-946) -/

/-- A generated container environment variable: either a plain value
(possibly absent, as for the executor variable) or a secret key
reference (`env_var_from_secret`). -/
inductive EnvVarModel
  | plain (name : String) (value : Option String)
  | fromSecret (name secret key : String)
deriving DecidableEq, Repr

def EnvVarModel.name : EnvVarModel → String
  | .plain n _ => n
  | .fromSecret n _ _ => n

/-- Embeds `build_mapped_envs` (src/operator/src/odoo_controller.rs:810-888).
`secretProp` is the `credentialsSecret` entry of the role group's
env properties (`OdooConfig::CREDENTIALS_SECRET_PROPERTY`). -/
def build_mapped_envs (c : OdooCluster) (secretProp : Option String) :
    List EnvVarModel :=
  let cc := c.clusterConfig
  let fromCreds : List EnvVarModel :=
    match secretProp with
    | some secret =>
      [.fromSecret "AIRFLOW__WEBSERVER__SECRET_KEY" secret "connections.secretKey",
       .fromSecret "AIRFLOW__CORE__SQL_ALCHEMY_CONN" secret
         "connections.sqlalchemyDatabaseUri",
       .fromSecret "AIRFLOW__CELERY__RESULT_BACKEND" secret
         "connections.celeryResultBackend",
       .fromSecret "AIRFLOW__CELERY__BROKER_URL" secret
         "connections.celeryBrokerUrl"]
    | none => []
  let gitEnv : List EnvVarModel :=
    match (c.git_sync).bind (·.gitFolder) with
    | some folder =>
      [.plain "AIRFLOW__CORE__DAGS_FOLDER"
        (some ("/stackable/app/git/current/" ++ folder))]
    | none => []
  let loadExamples : List EnvVarModel :=
    if cc.loadExamples = some true then
      [.plain "AIRFLOW__CORE__LOAD_EXAMPLES" (some "True")]
    else
      [.plain "AIRFLOW__CORE__LOAD_EXAMPLES" (some "False")]
  let exposeConfig : List EnvVarModel :=
    if cc.exposeConfig = some true then
      [.plain "AIRFLOW__WEBSERVER__EXPOSE_CONFIG" (some "True")]
    else
      []
  fromCreds ++ gitEnv ++ loadExamples ++ exposeConfig ++
    [.plain "AIRFLOW__CORE__EXECUTOR" cc.executor]

/-- First environment entry with the given name, if any. -/
def envValueOf (l : List EnvVarModel) (n : String) : Option EnvVarModel :=
  l.find? (fun v => decide (v.name = n))

/-! ## Helper lemmas -/

theorem validateLogging_ok_eva {C : Type} {f : LoggingFragment C}
    {lg : LoggingConfig C} (h : validateLogging f = .ok lg) :
    f.enableVectorAgent = some lg.enableVectorAgent := by
  unfold validateLogging at h
  cases heva : f.enableVectorAgent with
  | none => rw [heva] at h; exact absurd h (by simp)
  | some eva =>
    rw [heva] at h
    cases hcs : validateContainers f.containers with
    | error e =>
      rw [hcs] at h
      simp only [bind, Except.bind] at h
      exact absurd h (by simp)
    | ok cs =>
      rw [hcs] at h
      simp only [bind, Except.bind, pure, Except.pure] at h
      cases h
      rfl

/-- A successful fragment validation passes the resource bounds and the
affinity through unchanged, and requires the vector-agent flag. -/
theorem validateOdooConfig_ok_fields {f : OdooConfigFragment}
    {cfg : OdooConfig} (h : validateOdooConfig f = .ok cfg) :
    cfg.affinity = f.affinity ∧
    cfg.resources.cpu.min = f.resources.cpu.min ∧
    cfg.resources.cpu.max = f.resources.cpu.max ∧
    cfg.resources.memory.limit = f.resources.memory.limit ∧
    f.logging.enableVectorAgent = some cfg.logging.enableVectorAgent := by
  unfold validateOdooConfig at h
  cases hlg : validateLogging f.logging with
  | error e =>
    rw [hlg] at h
    simp only [bind, Except.bind] at h
    exact absurd h (by simp)
  | ok lg =>
    rw [hlg] at h
    simp only [bind, Except.bind, pure, Except.pure] at h
    cases h
    exact ⟨rfl, rfl, rfl, rfl, validateLogging_ok_eva hlg⟩

theorem assocLookup_nil {κ α : Type} [DecidableEq κ] (k : κ) :
    assocLookup ([] : List (κ × α)) k = none := rfl

theorem assocLookup_cons {κ α : Type} [DecidableEq κ] (k' : κ) (v : α)
    (l : List (κ × α)) (k : κ) :
    assocLookup ((k', v) :: l) k =
      if k' = k then some v else assocLookup l k := by
  by_cases h : k' = k <;> simp [assocLookup, List.find?_cons, h]

theorem assocLookup_append {κ α : Type} [DecidableEq κ]
    (l₁ l₂ : List (κ × α)) (k : κ) :
    assocLookup (l₁ ++ l₂) k = (assocLookup l₁ k <|> assocLookup l₂ k) := by
  induction l₁ with
  | nil => simp [assocLookup_nil]
  | cons p l₁ ih =>
    obtain ⟨k', v⟩ := p
    by_cases h : k' = k <;>
      simp [assocLookup_cons, h, ih]

/-- Lookup in the re-keyed map part of `mergeAssoc`. -/
theorem assocLookup_mergeAssoc_map {κ α : Type} [DecidableEq κ]
    (m : α → α → α) (g d : List (κ × α)) (k : κ) :
    assocLookup (g.map (fun p =>
      match assocLookup d p.1 with
      | some dv => (p.1, m p.2 dv)
      | none => p)) k =
    (assocLookup g k).map (fun v =>
      match assocLookup d k with
      | some dv => m v dv
      | none => v) := by
  induction g with
  | nil => simp [assocLookup_nil]
  | cons p g ih =>
    obtain ⟨k', v⟩ := p
    by_cases h : k' = k
    · subst h
      cases hd : assocLookup d k' <;>
        simp [assocLookup_cons, hd]
    · cases hd : assocLookup d k' <;>
        simp [assocLookup_cons, hd, h, ih]

/-- Lookup in the defaults-only part of `mergeAssoc`. -/
theorem assocLookup_filter_unset {κ α : Type} [DecidableEq κ]
    (g d : List (κ × α)) (k : κ) :
    assocLookup (d.filter (fun p => (assocLookup g p.1).isNone)) k =
      if (assocLookup g k).isNone then assocLookup d k else none := by
  induction d with
  | nil => simp [assocLookup_nil]
  | cons p d ih =>
    obtain ⟨k', v⟩ := p
    by_cases h : k' = k
    · subst h
      cases hg : (assocLookup g k').isNone <;>
        simp [List.filter_cons, hg, assocLookup_cons, ih]
    · cases hg : (assocLookup g k').isNone <;>
        simp [List.filter_cons, hg, assocLookup_cons, h, ih]

/-- Per-key behaviour of the association-map merge: at the shared key the
values are merged, otherwise whichever side sets the key wins. -/
theorem assocLookup_mergeAssoc {κ α : Type} [DecidableEq κ]
    (m : α → α → α) (g d : List (κ × α)) (k : κ) :
    assocLookup (mergeAssoc m g d) k =
      match assocLookup g k, assocLookup d k with
      | some gv, some dv => some (m gv dv)
      | some gv, none => some gv
      | none, some dv => some dv
      | none, none => none := by
  unfold mergeAssoc
  rw [assocLookup_append, assocLookup_mergeAssoc_map,
    assocLookup_filter_unset]
  cases hg : assocLookup g k <;> cases hd : assocLookup d k <;> simp [hg, hd]

/-- The level set for a given container and logger name by a logging
fragment (the leaf fields of the deep logging merge). -/
def loggerLevelAt {C : Type} [DecidableEq C]
    (l : List (C × ContainerLogConfigFragment)) (cn : C) (ln : String) :
    Option LogLevel :=
  (assocLookup l cn).bind (fun cc => (assocLookup cc.loggers ln).bind (·.level))

/-- The logging merge is fill-if-unset at every logger-level leaf. -/
theorem loggerLevelAt_mergeLogging {C : Type} [DecidableEq C]
    (a b : LoggingFragment C) (cn : C) (ln : String) :
    loggerLevelAt (mergeLogging a b).containers cn ln =
      (loggerLevelAt a.containers cn ln <|> loggerLevelAt b.containers cn ln) := by
  unfold loggerLevelAt mergeLogging
  rw [assocLookup_mergeAssoc]
  cases ha : assocLookup a.containers cn <;>
    cases hb : assocLookup b.containers cn
  · simp
  · simp
  · simp
  case some.some ca cb =>
    simp only [Option.some_bind, mergeContainerLogConfig]
    rw [assocLookup_mergeAssoc]
    cases hla : assocLookup ca.loggers ln <;>
        cases hlb : assocLookup cb.loggers ln <;>
      simp [mergeLoggerFragment]

/-- Reduction of `merged_config` once the role and role group are
resolved. -/
theorem merged_config_reduce {c : OdooCluster} {role : OdooRole}
    {roleE : RoleEntry} {rgName : String} {rgE : RoleGroupEntry}
    (hrole : c.get_role role = some roleE)
    (hrg : assocLookup roleE.roleGroups rgName = some rgE) :
    c.merged_config role rgName =
      (match validateOdooConfig (mergeOdooConfigFragment
          (match rgE.selector with
           | some sel =>
             { rgE.config with
               affinity := addLegacySelector rgE.config.affinity sel }
           | none => rgE.config)
          (mergeOdooConfigFragment roleE.config
            (OdooConfig.default_config c.name role))) with
       | .ok cfg => .ok cfg
       | .error e => .error (.fragmentValidationFailure e)) := by
  unfold OdooCluster.merged_config
  rw [hrole]
  simp only [hrg, Option.map_some', Option.getD_some]

/-! ## Claims -/

/-- C7: for every cluster name and every role, the default affinity
builder returns exactly two preferred (soft) scheduling rules and no
required (hard) rules: a pod-affinity preference with weight 20 over the
application-name and cluster-instance labels, and a pod-anti-affinity
preference with weight 70 over the application-name, cluster-instance
and role labels, both keyed on hostname. As a Lean function it is pure,
so identical inputs yield identical output. -/
theorem c7_default_affinity (clusterName : String) (role : OdooRole) :
    get_affinity clusterName role =
      { podAffinity := some
          { preferred := some
              [⟨⟨[("app.kubernetes.io/name", "odoo"),
                  ("app.kubernetes.io/instance", clusterName)],
                 "kubernetes.io/hostname"⟩, 20⟩],
            required := none },
        podAntiAffinity := some
          { preferred := some
              [⟨⟨[("app.kubernetes.io/name", "odoo"),
                  ("app.kubernetes.io/instance", clusterName),
                  ("app.kubernetes.io/component", role.toStr)],
                 "kubernetes.io/hostname"⟩, 70⟩],
            required := none },
        nodeAffinity := none,
        nodeSelector := none } := rfl

/-- C10: `role_port` is partial — it unwraps the role-name parse
(modelled by the outer `Option`, where `none` is the panic) and panics
exactly on strings outside webserver/scheduler/worker; for every role
name produced by `OdooRole::iter().to_string()` (in particular every key
of the reconciler's roles map) it returns the role's http port, so the
panic branch is unreachable there. -/
theorem c10_role_port (s : String) (c : OdooCluster) (roleName : String)
    (roleE : RoleEntry) (hmem : (roleName, roleE) ∈ rolesMap c) :
    (∀ r : OdooRole, role_port r.toStr = some r.getHttpPort) ∧
    (odooRoleFromStr s = none → role_port s = none) ∧
    role_port roleName ≠ none := by
  refine ⟨fun r => by cases r <;> rfl, fun h => by simp [role_port, h], ?_⟩
  simp only [rolesMap, List.mem_filterMap] at hmem
  obtain ⟨r, -, hr⟩ := hmem
  cases hgr : c.get_role r with
  | none => rw [hgr] at hr; cases hr
  | some e =>
    rw [hgr] at hr
    cases hr
    cases r <;> simp [role_port, odooRoleFromStr, OdooRole.toStr]

/-- A one-role one-group cluster used as a concrete input by several
witnesses. -/
def exampleRoleGroup : RoleGroupEntry :=
  { config := emptyOdooConfigFragment, replicas := some 1, selector := none }

def exampleWebserverRole : RoleEntry :=
  { config := emptyOdooConfigFragment,
    roleGroups := [("default", exampleRoleGroup)] }

def exampleCluster : OdooCluster :=
  { name := "odoo",
    clusterConfig :=
      { credentialsSecret := "simple-odoo-credentials",
        dagsGitSync := [],
        executor := some "CeleryExecutor",
        exposeConfig := some false,
        loadExamples := none },
    webservers := some exampleWebserverRole,
    schedulers := none,
    workers := none }

/-- C2: for the computed role-aware default fragment D, the role fragment
R and the role-group fragment G, `merged_config` resolves every field to
G's value if G sets it, else R's value if R sets it, else D's value —
i.e. the two `merge` calls (role onto default, then role-group onto the
result) implement exactly the three-way fill-if-unset precedence. This
covers every atomic field of the fragment (cpu min/max, memory limit,
vector-agent flag, the four affinity fields) and every logger-level leaf
of the deep logging merge. `merged_config` is a pure function of these
inputs, so the result is deterministic. -/
theorem c2_merge_precedence (c : OdooCluster) (role : OdooRole)
    (roleE : RoleEntry) (rgName : String) (rgE : RoleGroupEntry)
    (cfg : OdooConfig)
    (hrole : c.get_role role = some roleE)
    (hrg : assocLookup roleE.roleGroups rgName = some rgE)
    (hsel : rgE.selector = none)
    (hok : c.merged_config role rgName = .ok cfg) :
    cfg.resources.cpu.min =
      (rgE.config.resources.cpu.min <|> (roleE.config.resources.cpu.min <|>
        (OdooConfig.default_config c.name role).resources.cpu.min)) ∧
    cfg.resources.cpu.max =
      (rgE.config.resources.cpu.max <|> (roleE.config.resources.cpu.max <|>
        (OdooConfig.default_config c.name role).resources.cpu.max)) ∧
    cfg.resources.memory.limit =
      (rgE.config.resources.memory.limit <|>
        (roleE.config.resources.memory.limit <|>
          (OdooConfig.default_config c.name role).resources.memory.limit)) ∧
    some cfg.logging.enableVectorAgent =
      (rgE.config.logging.enableVectorAgent <|>
        (roleE.config.logging.enableVectorAgent <|>
          (OdooConfig.default_config c.name role).logging.enableVectorAgent)) ∧
    cfg.affinity.podAffinity =
      (rgE.config.affinity.podAffinity <|> (roleE.config.affinity.podAffinity <|>
        (OdooConfig.default_config c.name role).affinity.podAffinity)) ∧
    cfg.affinity.podAntiAffinity =
      (rgE.config.affinity.podAntiAffinity <|>
        (roleE.config.affinity.podAntiAffinity <|>
          (OdooConfig.default_config c.name role).affinity.podAntiAffinity)) ∧
    cfg.affinity.nodeAffinity =
      (rgE.config.affinity.nodeAffinity <|> (roleE.config.affinity.nodeAffinity <|>
        (OdooConfig.default_config c.name role).affinity.nodeAffinity)) ∧
    cfg.affinity.nodeSelector =
      (rgE.config.affinity.nodeSelector <|> (roleE.config.affinity.nodeSelector <|>
        (OdooConfig.default_config c.name role).affinity.nodeSelector)) ∧
    (∀ (cn : ContainerName) (ln : String),
      loggerLevelAt (mergeLogging rgE.config.logging
          (mergeLogging roleE.config.logging
            (OdooConfig.default_config c.name role).logging)).containers cn ln =
        (loggerLevelAt rgE.config.logging.containers cn ln <|>
          (loggerLevelAt roleE.config.logging.containers cn ln <|>
            loggerLevelAt
              (OdooConfig.default_config c.name role).logging.containers cn ln))) := by
  have hred := merged_config_reduce hrole hrg
  rw [hsel] at hred
  rw [hred] at hok
  cases hv : validateOdooConfig (mergeOdooConfigFragment rgE.config
      (mergeOdooConfigFragment roleE.config
        (OdooConfig.default_config c.name role))) with
  | error e => rw [hv] at hok; exact absurd hok (by simp)
  | ok cfg' =>
    rw [hv] at hok
    cases hok
    obtain ⟨ha, hmin, hmax, hlim, heva⟩ := validateOdooConfig_ok_fields hv
    refine ⟨?_, ?_, ?_, ?_, ?_, ?_, ?_, ?_, ?_⟩
    · rw [hmin]; rfl
    · rw [hmax]; rfl
    · rw [hlim]; rfl
    · rw [← heva]; rfl
    · rw [ha]; rfl
    · rw [ha]; rfl
    · rw [ha]; rfl
    · rw [ha]; rfl
    · intro cn ln
      rw [loggerLevelAt_mergeLogging, loggerLevelAt_mergeLogging]

/-- The effective configuration resolved for `exampleCluster`'s
webserver "default" role group (all fields from the computed default). -/
def exampleMergedConfig : OdooConfig :=
  { resources :=
      { cpu := ⟨some ⟨"100m"⟩, some ⟨"400m"⟩⟩, memory := ⟨some ⟨"2Gi"⟩⟩ },
    logging :=
      { enableVectorAgent := false,
        containers :=
          [(.odoo, ⟨[("ROOT", ⟨⟨"INFO"⟩⟩)]⟩),
           (.vector, ⟨[("ROOT", ⟨⟨"INFO"⟩⟩)]⟩)] },
    affinity := get_affinity "odoo" .webserver }

theorem c2_merge_precedence_witness :
    exampleCluster.merged_config .webserver "default" =
      .ok exampleMergedConfig ∧
    exampleMergedConfig.resources.cpu.max = some ⟨"400m"⟩ := by
  have hok : exampleCluster.merged_config .webserver "default" =
      .ok exampleMergedConfig := by decide
  have h := c2_merge_precedence exampleCluster .webserver
    exampleWebserverRole "default" exampleRoleGroup
    exampleMergedConfig rfl (by decide) rfl hok
  exact ⟨hok, by rw [h.2.1]; decide⟩

theorem default_config_affinity (n : String) (r : OdooRole) :
    (OdooConfig.default_config n r).affinity = get_affinity n r := by
  cases r <;> rfl

/-- C6: a role-group carrying a legacy flat node-selector has it
translated, before the three-layer merge, into a required node-affinity
match-expression plus a node-selector map; the translation is additive:
the effective configuration carries that required node affinity and
node-selector map in addition to the pod affinity and pod anti-affinity
that the merge produces (which are unchanged by the selector). -/
theorem c6_legacy_selector (c : OdooCluster) (role : OdooRole)
    (roleE : RoleEntry) (rgName : String) (rgE : RoleGroupEntry)
    (sel : LabelSelectorModel) (exprs : List NodeSelectorRequirement)
    (ml : List (String × String)) (cfg : OdooConfig)
    (hrole : c.get_role role = some roleE)
    (hrg : assocLookup roleE.roleGroups rgName = some rgE)
    (hsel : rgE.selector = some sel)
    (hme : sel.matchExpressions = some exprs)
    (hml : sel.matchLabels = some ml)
    (hgn : rgE.config.affinity.nodeAffinity = none)
    (hgs : rgE.config.affinity.nodeSelector = none)
    (hok : c.merged_config role rgName = .ok cfg) :
    cfg.affinity.nodeAffinity =
      some { preferred := none,
             required := some { nodeSelectorTerms :=
               [{ matchExpressions := some exprs }] } } ∧
    cfg.affinity.nodeSelector = some ml ∧
    cfg.affinity.podAffinity =
      (rgE.config.affinity.podAffinity <|> (roleE.config.affinity.podAffinity <|>
        (get_affinity c.name role).podAffinity)) ∧
    cfg.affinity.podAntiAffinity =
      (rgE.config.affinity.podAntiAffinity <|>
        (roleE.config.affinity.podAntiAffinity <|>
          (get_affinity c.name role).podAntiAffinity)) := by
  have hred := merged_config_reduce hrole hrg
  rw [hsel] at hred
  rw [hred] at hok
  cases hv : validateOdooConfig (mergeOdooConfigFragment
      { rgE.config with affinity := addLegacySelector rgE.config.affinity sel }
      (mergeOdooConfigFragment roleE.config
        (OdooConfig.default_config c.name role))) with
  | error e => rw [hv] at hok; exact absurd hok (by simp)
  | ok cfg' =>
    rw [hv] at hok
    cases hok
    obtain ⟨ha, -, -, -, -⟩ := validateOdooConfig_ok_fields hv
    rw [ha, ← default_config_affinity c.name role]
    simp [mergeOdooConfigFragment, mergeAffinity, addLegacySelector,
      hgn, hgs, hme, hml]

/-- The match expression of the legacy selector in the repo test
`test_affinity_legacy_node_selector` (src/crd/src/affinity.rs:179-187). -/
def zoneReq : NodeSelectorRequirement :=
  ⟨"topology.kubernetes.io/zone", "In",
    some ["antarctica-east1", "antarctica-west1"]⟩

def legacySel : LabelSelectorModel :=
  { matchLabels := some [("disktype", "ssd")],
    matchExpressions := some [zoneReq] }

def legacyRoleGroup : RoleGroupEntry :=
  { config := emptyOdooConfigFragment, replicas := some 1,
    selector := some legacySel }

/-- The cluster of the repo test `test_affinity_legacy_node_selector`
(src/crd/src/affinity.rs:152-276): a scheduler role group with the
deprecated flat selector. -/
def legacyCluster : OdooCluster :=
  { name := "odoo",
    clusterConfig :=
      { credentialsSecret := "simple-odoo-credentials",
        dagsGitSync := [],
        executor := some "CeleryExecutor",
        exposeConfig := some false,
        loadExamples := some true },
    webservers := none,
    schedulers := some
      { config := emptyOdooConfigFragment,
        roleGroups := [("default", legacyRoleGroup)] },
    workers := none }

def legacyMergedConfig : OdooConfig :=
  { resources :=
      { cpu := ⟨some ⟨"100m"⟩, some ⟨"400m"⟩⟩, memory := ⟨some ⟨"512Mi"⟩⟩ },
    logging :=
      { enableVectorAgent := false,
        containers :=
          [(.odoo, ⟨[("ROOT", ⟨⟨"INFO"⟩⟩)]⟩),
           (.vector, ⟨[("ROOT", ⟨⟨"INFO"⟩⟩)]⟩)] },
    affinity :=
      { podAffinity := (get_affinity "odoo" .scheduler).podAffinity,
        podAntiAffinity := (get_affinity "odoo" .scheduler).podAntiAffinity,
        nodeAffinity := some ⟨none, some ⟨[⟨some [zoneReq]⟩]⟩⟩,
        nodeSelector := some [("disktype", "ssd")] } }

theorem c6_legacy_selector_witness :
    legacyCluster.merged_config .scheduler "default" =
      .ok legacyMergedConfig ∧
    legacyMergedConfig.affinity.nodeSelector = some [("disktype", "ssd")] ∧
    legacyMergedConfig.affinity.podAntiAffinity =
      (get_affinity "odoo" .scheduler).podAntiAffinity := by
  have hok : legacyCluster.merged_config .scheduler "default" =
      .ok legacyMergedConfig := by decide
  have h := c6_legacy_selector legacyCluster .scheduler
    { config := emptyOdooConfigFragment,
      roleGroups := [("default", legacyRoleGroup)] }
    "default" legacyRoleGroup legacySel [zoneReq] [("disktype", "ssd")]
    legacyMergedConfig rfl (by decide) rfl rfl rfl rfl rfl hok
  refine ⟨hok, h.2.1, ?_⟩
  rw [h.2.2.2]
  decide

theorem c10_role_port_witness :
    role_port "webserver" = some (some 8080) ∧ role_port "bogus" = none := by
  have h := c10_role_port "bogus" exampleCluster "webserver"
    exampleWebserverRole (by decide)
  exact ⟨by simpa using h.1 OdooRole.webserver, h.2.1 (by decide)⟩

/-- C9 (counterexample to the claim as stated): for a cluster whose
`exposeConfig` flag is `false`, the generated environment set contains
*no* `AIRFLOW__WEBSERVER__EXPOSE_CONFIG` variable at all — the flag is
not rendered as the string "False" as the claim asserts (the source only
pushes the variable in the `Some(true)` branch,
src/operator/src/odoo_controller.rs:871-877). `exampleCluster` has
`exposeConfig = some false`. -/
theorem c9_counterexample :
    exampleCluster.clusterConfig.exposeConfig = some false ∧
    envValueOf (build_mapped_envs exampleCluster none)
      "AIRFLOW__WEBSERVER__EXPOSE_CONFIG" = none := by
  constructor
  · rfl
  · decide

/-- C9 (amended): the generated environment set is a pure function of
the cluster spec and the role-group env properties; `loadExamples` is
rendered as an env var with value "True" when the flag is true and
"False" when it is false or unset; `exposeConfig` is rendered (with
value "True") only when the flag is true, and is omitted entirely when
it is false or unset. -/
theorem c9_feature_flag_envs (c : OdooCluster) (secretProp : Option String) :
    envValueOf (build_mapped_envs c secretProp) "AIRFLOW__CORE__LOAD_EXAMPLES" =
      some (.plain "AIRFLOW__CORE__LOAD_EXAMPLES"
        (some (if c.clusterConfig.loadExamples = some true then "True" else "False"))) ∧
    (c.clusterConfig.exposeConfig = some true →
      envValueOf (build_mapped_envs c secretProp)
          "AIRFLOW__WEBSERVER__EXPOSE_CONFIG" =
        some (.plain "AIRFLOW__WEBSERVER__EXPOSE_CONFIG" (some "True"))) ∧
    (c.clusterConfig.exposeConfig ≠ some true →
      envValueOf (build_mapped_envs c secretProp)
          "AIRFLOW__WEBSERVER__EXPOSE_CONFIG" = none) := by
  unfold build_mapped_envs envValueOf
  cases hs : secretProp <;>
      cases hg : (c.git_sync).bind (·.gitFolder) <;>
      by_cases hl : c.clusterConfig.loadExamples = some true <;>
      by_cases he : c.clusterConfig.exposeConfig = some true <;>
    simp [hs, hg, hl, he, EnvVarModel.name, List.find?_append, List.find?]

theorem c9_feature_flag_envs_witness :
    envValueOf (build_mapped_envs exampleCluster none)
        "AIRFLOW__CORE__LOAD_EXAMPLES" =
      some (.plain "AIRFLOW__CORE__LOAD_EXAMPLES" (some "False")) ∧
    envValueOf (build_mapped_envs exampleCluster none)
        "AIRFLOW__WEBSERVER__EXPOSE_CONFIG" = none := by
  have h := c9_feature_flag_envs exampleCluster none
  refine ⟨?_, h.2.2 (by decide)⟩
  have h1 := h.1
  simpa using h1

/-- C8: when the `dagsGitSync` list has two or more entries, only the
first is honored: `git_sync` returns the first entry, the warning
diagnostic for the ignored remainder is emitted, and the git-sync
container arguments of every generated statefulset are exactly the first
entry's `get_args` (so only its repo and branch appear); no error is
raised — the statefulset builder still succeeds for every declared
role. -/
theorem c8_git_sync_single_source (c : OdooCluster) (g : GitSync)
    (rest : List GitSync)
    (hgs : c.clusterConfig.dagsGitSync = g :: rest) (hlen : rest ≠ []) :
    c.git_sync = some g ∧
    c.gitSyncWarning = true ∧
    (∀ (role : OdooRole) (roleE : RoleEntry) (roleName rgName : String),
      c.get_role role = some roleE →
      build_server_rolegroup_statefulset c role roleName rgName =
        .ok (.rgStatefulSet roleName rgName
          ((assocLookup roleE.roleGroups rgName).bind (·.replicas))
          (some (String.intercalate " " g.get_args)))) := by
  refine ⟨by simp [OdooCluster.git_sync, hgs], ?_, ?_⟩
  · cases rest with
    | nil => exact absurd rfl hlen
    | cons r rest' => simp [OdooCluster.gitSyncWarning, hgs]
  · intro role roleE roleName rgName hrole
    unfold build_server_rolegroup_statefulset
    rw [hrole]
    simp [OdooCluster.git_sync, hgs]

def gitSyncEntryOne : GitSync :=
  { repo := "https://github.com/stackabletech/odoo-operator",
    branch := some "feat/git-sync",
    gitFolder := some "dags",
    depth := none,
    wait := some 20,
    credentialsSecret := none,
    gitSyncConf := some [("--rev", "c63921857618a8c392ad757dda13090fff3d879a")] }

def gitSyncEntryTwo : GitSync :=
  { repo := "https://example.org/ignored-second-repo",
    branch := some "other",
    gitFolder := none,
    depth := none,
    wait := none,
    credentialsSecret := none,
    gitSyncConf := none }

/-- Variant of `exampleCluster` with two git-sync entries. -/
def gitSyncCluster : OdooCluster :=
  { exampleCluster with
    clusterConfig :=
      { exampleCluster.clusterConfig with
        dagsGitSync := [gitSyncEntryOne, gitSyncEntryTwo] } }

set_option maxRecDepth 4000 in
theorem c8_git_sync_single_source_witness :
    gitSyncCluster.git_sync = some gitSyncEntryOne ∧
    gitSyncCluster.gitSyncWarning = true ∧
    build_server_rolegroup_statefulset gitSyncCluster .webserver
        "webserver" "default" =
      .ok (.rgStatefulSet "webserver" "default" (some 1)
        (some ("/stackable/git-sync --repo=https://github.com/stackabletech/odoo-operator --branch=feat/git-sync --depth=1 --wait=20 --dest=current --root=/tmp/git --git-config=safe.directory:/tmp/git --rev=c63921857618a8c392ad757dda13090fff3d879a"))) := by
  have h := c8_git_sync_single_source gitSyncCluster gitSyncEntryOne
    [gitSyncEntryTwo] rfl (by simp)
  refine ⟨h.1, h.2.1, ?_⟩
  rw [h.2.2 .webserver exampleWebserverRole "webserver" "default" rfl]
  decide

/-- C4: for a database resource whose status condition is Pending and
whose config fragment validates: if the referenced credentials secret
exists, the reconcile applies the init job and its companion config map
and writes exactly one status patch, which moves the condition to
Initializing; if the secret does not exist, the reconcile returns the
retryable `SecretCheck` error (re-queued by `error_policy`) and writes
no status patch at all, so the persisted condition is unchanged. -/
theorem c4_pending_transition (db : OdooDBModel) (s : OdooDBStatus)
    (jobState : Option JobState) (now : Nat) (cfg : OdooDbConfig)
    (hst : db.status = some s) (hcond : s.condition = .pending)
    (hcfg : dbMergedConfig db.config = .ok cfg) :
    (reconcile_odoo_db db true jobState now =
      { applied := [.serviceAccount, .roleBinding,
          .configMap (db.name ++ "-init-db"), .initJob db.name],
        statusPatches := [s.initializing],
        result := .ok () } ∧
      (s.initializing).condition = .initializing ∧
      (s.initializing).startedAt = s.startedAt) ∧
    (reconcile_odoo_db db false jobState now =
      { applied := [.serviceAccount, .roleBinding],
        statusPatches := [],
        result := .error (.secretCheck db.credentialsSecret) } ∧
      dbPersist db.status (reconcile_odoo_db db false jobState now) =
        db.status) := by
  constructor
  · refine ⟨?_, rfl, rfl⟩
    simp [reconcile_odoo_db, hst, hcond, hcfg]
  · have hrec : reconcile_odoo_db db false jobState now =
        { applied := [.serviceAccount, .roleBinding],
          statusPatches := [],
          result := .error (.secretCheck db.credentialsSecret) } := by
      simp [reconcile_odoo_db, hst, hcond]
    exact ⟨hrec, by rw [hrec]; rfl⟩

def exampleDb : OdooDBModel :=
  { name := "odoo",
    credentialsSecret := "simple-odoo-credentials",
    config := ⟨⟨none, []⟩⟩,
    status := some ⟨some 0, .pending⟩ }

theorem c4_pending_transition_witness :
    reconcile_odoo_db exampleDb true none 7 =
      { applied := [.serviceAccount, .roleBinding,
          .configMap "odoo-init-db", .initJob "odoo"],
        statusPatches := [⟨some 0, .initializing⟩],
        result := .ok () } ∧
    reconcile_odoo_db exampleDb false none 7 =
      { applied := [.serviceAccount, .roleBinding],
        statusPatches := [],
        result := .error (.secretCheck "simple-odoo-credentials") } := by
  have h := c4_pending_transition exampleDb ⟨some 0, .pending⟩ none 7
    ⟨⟨false, [(.odooInitDb, ⟨[("ROOT", ⟨⟨"INFO"⟩⟩)]⟩),
              (.vector, ⟨[("ROOT", ⟨⟨"INFO"⟩⟩)]⟩)]⟩⟩
    rfl rfl (by decide)
  exact ⟨h.1.1, h.2.1⟩

/-- C5: Ready and Failed are terminal: a reconcile of a database whose
condition is Ready or Failed applies nothing beyond the unconditional
RBAC objects, writes no status patch, and succeeds; consequently no
sequence of reconcile steps (with any secret/job observations) ever
changes the persisted status away from Ready or Failed. -/
theorem c5_terminal_states (db : OdooDBModel) (s : OdooDBStatus)
    (hst : db.status = some s)
    (hterm : s.condition = .ready ∨ s.condition = .failed) :
    (∀ (secretExists : Bool) (jobState : Option JobState) (now : Nat),
      reconcile_odoo_db db secretExists jobState now =
        { applied := [.serviceAccount, .roleBinding],
          statusPatches := [], result := .ok () }) ∧
    (∀ inputs : List (Bool × Option JobState × Nat),
      (dbRun db inputs).status = some s) := by
  have hrec : ∀ (se : Bool) (js : Option JobState) (now : Nat),
      reconcile_odoo_db db se js now =
        { applied := [.serviceAccount, .roleBinding],
          statusPatches := [], result := .ok () } := by
    intro se js now
    rcases hterm with hc | hc <;> simp [reconcile_odoo_db, hst, hc]
  refine ⟨hrec, ?_⟩
  intro inputs
  induction inputs generalizing db with
  | nil => simpa [dbRun] using hst
  | cons i rest ih =>
    have hstep : dbStep db i = db := by
      unfold dbStep
      rw [hrec i.1 i.2.1 i.2.2]
      simp [dbPersist]
    rw [dbRun, List.foldl_cons, hstep]
    exact ih db hst hrec

theorem c5_terminal_states_witness :
    (dbRun { exampleDb with status := some ⟨some 0, .ready⟩ }
        [(true, some .failed, 3), (false, none, 4),
         (true, some .complete, 5)]).status = some ⟨some 0, .ready⟩ ∧
    (dbRun { exampleDb with status := some ⟨some 0, .failed⟩ }
        [(true, some .complete, 9)]).status = some ⟨some 0, .failed⟩ := by
  constructor
  · exact (c5_terminal_states _ ⟨some 0, .ready⟩ rfl (Or.inl rfl)).2 _
  · exact (c5_terminal_states _ ⟨some 0, .failed⟩ rfl (Or.inr rfl)).2 _

/-- If the role-group loop finishes without error, it has applied the
service, config map and statefulset of every role group in its list. -/
theorem reconcileRoleGroups_ok_mem (c : OdooCluster) (roleName : String)
    (rgs : List (String × RoleGroupEntry))
    (hok : (reconcileRoleGroups c roleName rgs).2 = none) :
    ∀ rgName rgE, (rgName, rgE) ∈ rgs →
      build_rolegroup_service roleName rgName ∈
        (reconcileRoleGroups c roleName rgs).1 ∧
      ClusterResource.rgConfigMap roleName rgName ∈
        (reconcileRoleGroups c roleName rgs).1 ∧
      ∃ replicas args,
        ClusterResource.rgStatefulSet roleName rgName replicas args ∈
          (reconcileRoleGroups c roleName rgs).1 := by
  induction rgs with
  | nil => intro rgName rgE h; cases h
  | cons p rest ih =>
    obtain ⟨rgName0, rgE0⟩ := p
    intro rgName rgE hmem
    cases hparse : odooRoleFromStr roleName with
    | none => simp [reconcileRoleGroups, hparse] at hok
    | some role =>
      cases hmc : c.merged_config role rgName0 with
      | error e => simp [reconcileRoleGroups, hparse, hmc] at hok
      | ok cfg =>
        cases hbs : build_server_rolegroup_statefulset c role roleName rgName0 with
        | error e => simp [reconcileRoleGroups, hparse, hmc, hbs] at hok
        | ok sfs =>
          have hunfold : reconcileRoleGroups c roleName ((rgName0, rgE0) :: rest) =
              ([build_rolegroup_service roleName rgName0,
                build_rolegroup_config_map roleName rgName0, sfs] ++
                (reconcileRoleGroups c roleName rest).1,
               (reconcileRoleGroups c roleName rest).2) := by
            simp [reconcileRoleGroups, hparse, hmc, hbs]
          rw [hunfold] at hok ⊢
          rcases List.mem_cons.mp hmem with heq | hrest
          · obtain ⟨h1, h2⟩ := Prod.mk.injEq .. ▸ heq
            cases h1
            refine ⟨by simp, ?_, ?_⟩
            · simp [build_rolegroup_config_map]
            · have hsf : ∃ replicas args,
                  sfs = ClusterResource.rgStatefulSet roleName rgName0 replicas args := by
                unfold build_server_rolegroup_statefulset at hbs
                cases hrole : c.get_role role with
                | none => rw [hrole] at hbs; cases hbs
                | some roleE =>
                  rw [hrole] at hbs
                  cases hbs
                  exact ⟨_, _, rfl⟩
              obtain ⟨replicas, args, hsf⟩ := hsf
              exact ⟨replicas, args, by simp [hsf]⟩
          · have := ih hok rgName rgE hrest
            refine ⟨?_, ?_, ?_⟩
            · exact List.mem_append_right _ this.1
            · exact List.mem_append_right _ this.2.1
            · obtain ⟨replicas, args, hm⟩ := this.2.2
              exact ⟨replicas, args, List.mem_append_right _ hm⟩

/-- If the role loop finishes without error, it has applied the role
service of every role with an http port and the full per-role-group
resource triple of every role group of every role in its list. -/
theorem reconcileRoles_ok_mem (c : OdooCluster) (l : List (String × RoleEntry))
    (hok : (reconcileRoles c l).2 = none) :
    ∀ roleName roleE, (roleName, roleE) ∈ l →
      (∀ p, role_port roleName = some (some p) →
        ClusterResource.roleService roleName p ∈ (reconcileRoles c l).1) ∧
      (∀ rgName rgE, (rgName, rgE) ∈ roleE.roleGroups →
        build_rolegroup_service roleName rgName ∈ (reconcileRoles c l).1 ∧
        ClusterResource.rgConfigMap roleName rgName ∈ (reconcileRoles c l).1 ∧
        ∃ replicas args,
          ClusterResource.rgStatefulSet roleName rgName replicas args ∈
            (reconcileRoles c l).1) := by
  induction l with
  | nil => intro roleName roleE h; cases h
  | cons p rest ih =>
    obtain ⟨roleName0, roleE0⟩ := p
    intro roleName roleE hmem
    cases hrg : (reconcileRoleGroups c roleName0 roleE0.roleGroups).2 with
    | some e => simp [reconcileRoles, hrg] at hok
    | none =>
      have hunfold : reconcileRoles c ((roleName0, roleE0) :: rest) =
          ((match role_port roleName0 with
            | some (some p) => [ClusterResource.roleService roleName0 p]
            | _ => ([] : List ClusterResource)) ++
            (reconcileRoleGroups c roleName0 roleE0.roleGroups).1 ++
            (reconcileRoles c rest).1,
           (reconcileRoles c rest).2) := by
        simp [reconcileRoles, hrg]
      rw [hunfold] at hok ⊢
      rcases List.mem_cons.mp hmem with heq | hrest
      · obtain ⟨h1, h2⟩ := Prod.mk.injEq .. ▸ heq
        cases h1
        cases h2
        constructor
        · intro p hp
          rw [hp]
          simp
        · intro rgName rgE hrgmem
          have := reconcileRoleGroups_ok_mem c roleName0 roleE0.roleGroups
            hrg rgName rgE hrgmem
          refine ⟨?_, ?_, ?_⟩
          · exact List.mem_append_left _ (List.mem_append_right _ this.1)
          · exact List.mem_append_left _ (List.mem_append_right _ this.2.1)
          · obtain ⟨replicas, args, hm⟩ := this.2.2
            exact ⟨replicas, args,
              List.mem_append_left _ (List.mem_append_right _ hm)⟩
      · have := ih hok roleName roleE hrest
        constructor
        · intro p hp
          exact List.mem_append_right _ (this.1 p hp)
        · intro rgName rgE hrgmem
          have h2 := this.2 rgName rgE hrgmem
          refine ⟨List.mem_append_right _ h2.1,
            List.mem_append_right _ h2.2.1, ?_⟩
          obtain ⟨replicas, args, hm⟩ := h2.2.2
          exact ⟨replicas, args, List.mem_append_right _ hm⟩

/-- C1: the database-readiness gate. `dbNotReady` (the embedded
`From<&DbConditionBuilder> for bool`) is false exactly when the db status
is present with condition Ready. Whenever it is true (absent status,
Pending, Initializing or Failed), the cluster reconcile writes only the
cluster's own "waiting" status condition and returns the wait action,
applying no role Service, role-group Service, ConfigMap or StatefulSet
(it applies nothing at all past the db object). When the condition is
Ready and the pass succeeds, the applied set contains the role Service
of every role with an http port and the Service/ConfigMap/StatefulSet of
every declared role group. -/
theorem c1_db_gate (c : OdooCluster) (st : Option OdooDBStatus) :
    (dbNotReady st = false ↔ ∃ s, st = some s ∧ s.condition = .ready) ∧
    (dbNotReady st = true →
      reconcile_odoo c st =
        { patches := [.dbWaiting (dbConditions st)], applied := [],
          result := .ok .awaitChange }) ∧
    (dbNotReady st = false →
      (reconcile_odoo c st).result = .ok .awaitChange →
      ∀ roleName roleE, (roleName, roleE) ∈ rolesMap c →
        (∀ p, role_port roleName = some (some p) →
          ClusterResource.roleService roleName p ∈
            (reconcile_odoo c st).applied) ∧
        (∀ rgName rgE, (rgName, rgE) ∈ roleE.roleGroups →
          build_rolegroup_service roleName rgName ∈
            (reconcile_odoo c st).applied ∧
          ClusterResource.rgConfigMap roleName rgName ∈
            (reconcile_odoo c st).applied ∧
          ∃ replicas args,
            ClusterResource.rgStatefulSet roleName rgName replicas args ∈
              (reconcile_odoo c st).applied)) := by
  refine ⟨?_, ?_, ?_⟩
  · constructor
    · intro h
      match st with
      | none => simp [dbNotReady] at h
      | some s =>
        match hc : s.condition with
        | .pending => rw [dbNotReady, hc] at h; cases h
        | .initializing => rw [dbNotReady, hc] at h; cases h
        | .failed => rw [dbNotReady, hc] at h; cases h
        | .ready => exact ⟨s, rfl, hc⟩
    · rintro ⟨s, rfl, hc⟩
      rw [dbNotReady, hc]
  · intro h
    simp [reconcile_odoo, h]
  · intro hnr hres roleName roleE hmem
    have hout : reconcile_odoo c st =
        (match (reconcileRoles c (rolesMap c)).2 with
         | some e =>
           { patches := [],
             applied := [ClusterResource.serviceAccount, .roleBinding] ++
               (reconcileRoles c (rolesMap c)).1,
             result := .error e }
         | none =>
           { patches := [.aggregated],
             applied := [ClusterResource.serviceAccount, .roleBinding] ++
               (reconcileRoles c (rolesMap c)).1,
             result := .ok .awaitChange }) := by
      simp [reconcile_odoo, hnr]
    cases herr : (reconcileRoles c (rolesMap c)).2 with
    | some e =>
      rw [hout, herr] at hres
      exact absurd hres (by simp)
    | none =>
      rw [hout, herr]
      have h := reconcileRoles_ok_mem c (rolesMap c) herr roleName roleE hmem
      refine ⟨?_, ?_⟩
      · intro p hp
        exact List.mem_append_right _ (h.1 p hp)
      · intro rgName rgE hrgmem
        have h2 := h.2 rgName rgE hrgmem
        refine ⟨List.mem_append_right _ h2.1,
          List.mem_append_right _ h2.2.1, ?_⟩
        obtain ⟨replicas, args, hm⟩ := h2.2.2
        exact ⟨replicas, args, List.mem_append_right _ hm⟩

theorem c1_db_gate_witness :
    reconcile_odoo exampleCluster (some ⟨some 0, .failed⟩) =
      { patches := [.dbWaiting ⟨.isFalse, "Odoo database initialization failed."⟩],
        applied := [], result := .ok .awaitChange } ∧
    reconcile_odoo exampleCluster none =
      { patches := [.dbWaiting
          ⟨.unknown, "Waiting for Odoo database initialization to start."⟩],
        applied := [], result := .ok .awaitChange } ∧
    ClusterResource.roleService "webserver" 8080 ∈
      (reconcile_odoo exampleCluster (some ⟨some 0, .ready⟩)).applied ∧
    ClusterResource.rgConfigMap "webserver" "default" ∈
      (reconcile_odoo exampleCluster (some ⟨some 0, .ready⟩)).applied := by
  have hf := (c1_db_gate exampleCluster (some ⟨some 0, .failed⟩)).2.1 rfl
  have hn := (c1_db_gate exampleCluster none).2.1 rfl
  have hr := (c1_db_gate exampleCluster (some ⟨some 0, .ready⟩)).2.2 rfl
    (by decide) "webserver" exampleWebserverRole (by decide)
  refine ⟨by simpa using hf, by simpa using hn, ?_, ?_⟩
  · exact hr.1 8080 (by decide)
  · exact (hr.2 "default" exampleRoleGroup (by decide)).2.1

/-- A role-group config fragment whose logging sets a logger without a
level: after the merge the level is still unset, so fragment validation
fails. -/
def badLoggingFragment : OdooConfigFragment :=
  { emptyOdooConfigFragment with
    logging :=
      { enableVectorAgent := none,
        containers := [(.odoo, ⟨[("custom", ⟨none⟩)]⟩)] } }

def c3BadRoleGroup : RoleGroupEntry :=
  { config := badLoggingFragment, replicas := some 1, selector := none }

/-- Variant of `exampleCluster` with two webserver role groups: "a" (whose config
fails fragment validation) and "b" (fine). -/
def c3Cluster : OdooCluster :=
  { exampleCluster with
    webservers := some
      { config := emptyOdooConfigFragment,
        roleGroups := [("a", c3BadRoleGroup), ("b", exampleRoleGroup)] } }

/-- C3 (counterexample to the claim as stated): with the database Ready,
reconciling `c3Cluster` hits the fragment-validation failure of role
group "a" and aborts the *entire* pass: the reconcile returns the typed
error, and role group "b" — also declared — gets none of its resources
(the applied list stops at the role service); it is not processed in the
same reconcile pass, contradicting "all other declared role-groups are
still processed". -/
theorem c3_counterexample :
    (reconcile_odoo c3Cluster (some ⟨some 0, .ready⟩)).result =
      .error (.failedToResolveConfig "webserver" "a"
        (.fragmentValidationFailure ⟨"custom.level"⟩)) ∧
    (reconcile_odoo c3Cluster (some ⟨some 0, .ready⟩)).applied =
      [.serviceAccount, .roleBinding, .roleService "webserver" 8080] := by
  exact ⟨by decide, by decide⟩

/-- C3 (amended): when resolving the effective configuration of a role
group fails fragment validation, the whole reconcile pass is aborted:
the role-group loop stops at the failing role group, produces no further
resources, and propagates the typed `FailedToResolveConfig` error (role
groups after the failing one in iteration order are not processed in
that pass; the pass is retried wholesale after backoff). -/
theorem c3_validation_aborts_pass (c : OdooCluster) (roleName rgName : String)
    (rgE : RoleGroupEntry) (rest : List (String × RoleGroupEntry))
    (role : OdooRole) (e : CrdError)
    (hparse : odooRoleFromStr roleName = some role)
    (herr : c.merged_config role rgName = .error e) :
    reconcileRoleGroups c roleName ((rgName, rgE) :: rest) =
      ([], some (.failedToResolveConfig roleName rgName e)) := by
  simp [reconcileRoleGroups, hparse, herr]

theorem c3_validation_aborts_pass_witness :
    reconcileRoleGroups c3Cluster "webserver"
        [("a", c3BadRoleGroup), ("b", exampleRoleGroup)] =
      ([], some (.failedToResolveConfig "webserver" "a"
        (.fragmentValidationFailure ⟨"custom.level"⟩))) :=
  c3_validation_aborts_pass c3Cluster "webserver" "a" c3BadRoleGroup
    [("b", exampleRoleGroup)] .webserver
    (.fragmentValidationFailure ⟨"custom.level"⟩) (by decide) (by decide)

end SovOO
